import Mathlib

/-!
Verification of the X-ray acquisition and processing application core
(`gui.py`, `ui/pipeline.py`, `modules/registry.py`,
`modules/image_processing/bad_pixel_map/bad_pixel_correction.py`).

Shallow embedding:
* frames are pixel-indexed rational-valued functions (the source works in
  IEEE single precision; the claims under study are structural, stated "to
  within round-off", so exact rational arithmetic is the reference model);
* the frame store (integration ring buffer and the integrated mean display);
* the correction pipeline runners (live, capture up-to-slot, continuation),
  with stage application in the `Except` monad so that a stage body raising
  an exception is observable, mirroring the try/raise in the source;
* nearest-match dark reference lookup with its distance metric;
* the acquisition controller entry points `request_integration` and
  `request_n_frames_processed_up_to_slot` as deterministic state functions,
  with the concurrent waits abstracted by explicit outcome parameters;
* the bad-pixel replacement stage;
* alteration-pipeline construction from the module registry.
-/

/-- A processed frame: a value at each (flattened) pixel index. -/
def Frame : Type := Nat → ℚ

/-- A 2-D frame for the bad-pixel stage: value at (row, column). -/
def Frame2D : Type := Nat → Nat → ℚ

/-- Python list slice `l[-n:]` for an arbitrary Python int `n`
(`frame_buffer[-self.integration_n:]` in `_push_frame`, gui.py line 700):
`n = 0` yields the whole list, a negative `n` drops `-n` entries from the
front, and a positive `n` keeps the last `min (length l) n` entries. -/
def pySliceLast (n : Int) (l : List α) : List α :=
  if n ≤ 0 then l.drop (-n).toNat else l.drop (l.length - n.toNat)

/-- The `_push_frame` buffer update (gui.py lines 698-700): append the
processed frame, and when the buffer length exceeds `integration_n` keep
`frame_buffer[-integration_n:]`. -/
def pushProcessedBuffer (n : Int) (buf : List Frame) (f : Frame) : List Frame :=
  let b := buf ++ [f]
  if (b.length : Int) > n then pySliceLast n b else b

/-- Pixel-wise arithmetic mean of a list of frames
(`np.mean(self.frame_buffer, axis=0)`). -/
def meanFrames (buf : List Frame) : Frame :=
  fun p => ((buf.map (fun f => f p)).sum) / (buf.length : ℚ)

/-- `XrayGUI._update_integrated_display` (gui.py lines 326-330): when the
buffer is non-empty the display frame becomes the mean of the buffer,
otherwise the display frame is left unchanged. -/
def updateIntegratedDisplay (buf : List Frame) (display : Option Frame) : Option Frame :=
  if buf.isEmpty then display else some (meanFrames buf)

/-- Push a sequence of processed frames through the buffer update, starting
from an empty integration buffer. -/
def pushAllBuf (n : Int) (fs : List Frame) : List Frame :=
  fs.foldl (pushProcessedBuffer n) []

lemma pushProcessedBuffer_drop (n : Int) (hn : 1 ≤ n) (l : List Frame) (f : Frame) :
    pushProcessedBuffer n (l.drop (l.length - n.toNat)) f
      = (l ++ [f]).drop ((l ++ [f]).length - n.toNat) := by
  have hm : 1 ≤ n.toNat := by omega
  set k := l.length with hk
  set m := n.toNat with hmdef
  by_cases hkm : k < m
  · have h0 : k - m = 0 := by omega
    have h1 : (l ++ [f]).length - m = 0 := by
      simp only [List.length_append, List.length_cons, List.length_nil]
      omega
    simp only [pushProcessedBuffer, h0, h1, List.drop_zero]
    rw [if_neg]
    simp only [List.length_append, List.length_cons, List.length_nil]
    omega
  · have hcond : (((l.drop (k - m) ++ [f]).length : Int) > n) := by
      simp only [List.length_append, List.length_drop, List.length_cons, List.length_nil]
      omega
    have hlen : (l.drop (k - m) ++ [f]).length = (k - (k - m)) + 1 := by
      simp [List.length_drop]
    simp only [pushProcessedBuffer, if_pos hcond, pySliceLast, hk]
    have hneg : ¬ (n ≤ 0) := by omega
    rw [if_neg hneg, hlen]
    have hdrop1 : (k - (k - m)) + 1 - m = 1 := by omega
    rw [hdrop1]
    have hle : 1 ≤ (l.drop (k - m)).length := by
      simp [List.length_drop]; omega
    rw [List.drop_append_of_le_length hle, List.drop_drop]
    have hle2 : (l ++ [f]).length - m ≤ l.length := by
      simp only [List.length_append, List.length_cons, List.length_nil]
      omega
    rw [List.drop_append_of_le_length hle2]
    congr 2
    simp only [List.length_append, List.length_cons, List.length_nil]
    omega

lemma pushAllBuf_eq_drop (n : Int) (hn : 1 ≤ n) (fs : List Frame) :
    pushAllBuf n fs = fs.drop (fs.length - n.toNat) := by
  induction fs using List.reverseRecOn with
  | nil => simp [pushAllBuf]
  | append_singleton l f ih =>
      have hstep : pushAllBuf n (l ++ [f]) = pushProcessedBuffer n (pushAllBuf n l) f := by
        simp [pushAllBuf, List.foldl_append]
      rw [hstep, ih, pushProcessedBuffer_drop n hn]

/-- Claim C1: for every sequence of processed frames pushed into the frame
store with integration capacity `N ≥ 1`, after the pushes the buffer holds
exactly the newest `min k N` frames (eviction keeps the newest entries) and
the integrated display frame equals their pixel-wise arithmetic mean. Since
the sequence is universally quantified this holds after each push. -/
theorem frame_store_integrated_mean (n : Int) (hn : 1 ≤ n)
    (fs : List Frame) (hfs : fs ≠ []) (d0 : Option Frame) :
    pushAllBuf n fs = fs.drop (fs.length - n.toNat)
    ∧ (pushAllBuf n fs).length = min fs.length n.toNat
    ∧ updateIntegratedDisplay (pushAllBuf n fs) d0
        = some (fun p =>
            (((fs.drop (fs.length - n.toNat)).map (fun f => f p)).sum)
              / ((min fs.length n.toNat : Nat) : ℚ)) := by
  have hbuf := pushAllBuf_eq_drop n hn fs
  have hlen : (pushAllBuf n fs).length = min fs.length n.toNat := by
    rw [hbuf, List.length_drop]; omega
  refine ⟨hbuf, hlen, ?_⟩
  have hpos : 0 < fs.length := List.length_pos.mpr hfs
  have hne : ¬ (pushAllBuf n fs).isEmpty := by
    rw [List.isEmpty_iff_length_eq_zero, hlen]
    omega
  rw [updateIntegratedDisplay, if_neg hne]
  congr 1
  funext p
  rw [meanFrames, hbuf]
  congr 1
  rw [List.length_drop]
  congr 1
  omega

def constFrame (v : ℚ) : Frame := fun _ => v

/-- Witness for C1 at scenario S3: capacity 3, frames of constant values
10, 20, 30, 40; the buffer keeps the newest three and the display is their
mean (the constant-30 frame). -/
theorem frame_store_integrated_mean_witness :
    (1 : Int) ≤ 3
    ∧ ([constFrame 10, constFrame 20, constFrame 30, constFrame 40] : List Frame) ≠ []
    ∧ (pushAllBuf 3 [constFrame 10, constFrame 20, constFrame 30, constFrame 40]
        = ([constFrame 10, constFrame 20, constFrame 30, constFrame 40].drop
            ([constFrame 10, constFrame 20, constFrame 30, constFrame 40].length - (3 : Int).toNat))
      ∧ (pushAllBuf 3 [constFrame 10, constFrame 20, constFrame 30, constFrame 40]).length
          = min [constFrame 10, constFrame 20, constFrame 30, constFrame 40].length (3 : Int).toNat
      ∧ updateIntegratedDisplay
            (pushAllBuf 3 [constFrame 10, constFrame 20, constFrame 30, constFrame 40]) none
          = some (fun p =>
              ((([constFrame 10, constFrame 20, constFrame 30, constFrame 40].drop
                  ([constFrame 10, constFrame 20, constFrame 30, constFrame 40].length
                    - (3 : Int).toNat)).map (fun f => f p)).sum)
                / ((min [constFrame 10, constFrame 20, constFrame 30, constFrame 40].length
                      (3 : Int).toNat : Nat) : ℚ))) :=
  ⟨by norm_num, List.cons_ne_nil _ _,
    frame_store_integrated_mean 3 (by norm_num) _ (List.cons_ne_nil _ _) none⟩

/-! ### Correction pipeline runners (gui.py `_push_frame`, `_continue_pipeline_from_slot`)

A pipeline entry is `(pipeline_slot, module_name, process_frame)`. A stage's
`process_frame` body may raise, so stage application lives in `Except`; the
runner's try/except blocks log a diagnostic line and then re-raise, which is
exactly error propagation in `Except`. The per-module input cache, the frame
token and the pre-distortion snapshot recorded by the runners are diagnostic
or preview state that does not feed back into the frame flowing through the
stages, so they are not part of the frame-result model. -/

structure Stage where
  slot : Int
  name : String
  step : Frame → Except String Frame

/-- The stage loop shared by every execution mode: apply the stages in list
order; a stage exception is re-raised (after the diagnostic print). -/
def runStages : List Stage → Frame → Except String Frame
  | [], f => Except.ok f
  | st :: rest, f =>
      match st.step f with
      | Except.error e => Except.error e
      | Except.ok g => runStages rest g

/-- Capture (prefix-only) mode of `_push_frame` (gui.py lines 646-671): run
the pipeline entries in order, stopping (`break`) at the first entry with
`slot >= max_slot`; the collected capture frame is the loop's result. -/
def runUpToSlot (pipeline : List Stage) (maxSlot : Int) (f : Frame) :
    Except String Frame :=
  runStages (pipeline.takeWhile (fun st => decide (st.slot < maxSlot))) f

/-- `_continue_pipeline_from_slot` (gui.py lines 736-753): run the entries
whose slot is strictly greater than `start_slot_exclusive` (the loop
`continue`s past `slot <= start_slot_exclusive`); the initial
`np.asarray(frame, dtype=np.float32)` is the identity in this model. -/
def continuePipelineFromSlot (pipeline : List Stage) (startSlotExclusive : Int)
    (f : Frame) : Except String Frame :=
  runStages (pipeline.filter (fun st => decide (startSlotExclusive < st.slot))) f

/-- Live mode of `_push_frame` (gui.py lines 673-692): run every stage in
order. -/
def runLivePipeline (pipeline : List Stage) (f : Frame) : Except String Frame :=
  runStages pipeline f

lemma runStages_append (l₁ l₂ : List Stage) (f : Frame) :
    runStages (l₁ ++ l₂) f = (runStages l₁ f).bind (runStages l₂) := by
  induction l₁ generalizing f with
  | nil => rfl
  | cons a l ih =>
      simp only [List.cons_append, runStages]
      cases a.step f with
      | error e => rfl
      | ok g => exact ih g

lemma takeWhile_append_all {α : Type} (q : α → Bool) (l₁ l₂ : List α)
    (h : ∀ x ∈ l₁, q x = true) :
    (l₁ ++ l₂).takeWhile q = l₁ ++ l₂.takeWhile q := by
  induction l₁ with
  | nil => simp
  | cons a l ih =>
      have ha : q a = true := h a (List.mem_cons_self a l)
      simp only [List.cons_append, List.takeWhile_cons, ha, if_true]
      rw [ih fun x hx => h x (List.mem_cons_of_mem a hx)]

lemma filter_append_split {α : Type} (r : α → Bool) (l₁ l₂ : List α)
    (h₁ : ∀ x ∈ l₁, r x = false) (h₂ : ∀ x ∈ l₂, r x = true) :
    (l₁ ++ l₂).filter r = l₂ := by
  rw [List.filter_append, List.filter_eq_nil_iff.mpr, List.filter_eq_self.mpr h₂,
    List.nil_append]
  intro x hx
  simp [h₁ x hx]

/-- Claim C2: with strictly increasing slots, let `a` and `b` be two
consecutive pipeline stages (`s_{i-1}` and `s_i`). Running the prefix-only
mode with `max_slot = b.slot` and then continuing from slot `a.slot` gives
the same result as one full live run on the same input. Stages with
`auto_enabled = false` implement pass-through inside their own `step`, so
they are covered by the quantification over stage functions; the equation
holds in `Except`, so it also matches when some stage raises. -/
theorem pipeline_prefix_continuation_eq_live
    (l₁ l₂ : List Stage) (a b : Stage)
    (hsorted : List.Pairwise (fun x y => x.slot < y.slot) (l₁ ++ a :: b :: l₂))
    (f : Frame) :
    (runUpToSlot (l₁ ++ a :: b :: l₂) b.slot f).bind
        (continuePipelineFromSlot (l₁ ++ a :: b :: l₂) a.slot)
      = runLivePipeline (l₁ ++ a :: b :: l₂) f := by
  rw [List.pairwise_append] at hsorted
  obtain ⟨-, htail, hcross⟩ := hsorted
  rw [List.pairwise_cons] at htail
  obtain ⟨ha, htail2⟩ := htail
  rw [List.pairwise_cons] at htail2
  obtain ⟨hb, -⟩ := htail2
  have hab : a.slot < b.slot := ha b (List.mem_cons_self b l₂)
  -- the capture prefix is exactly l₁ ++ [a]
  have htake : (l₁ ++ a :: b :: l₂).takeWhile (fun st => decide (st.slot < b.slot))
      = l₁ ++ [a] := by
    rw [takeWhile_append_all _ l₁ _ (fun x hx => by
      simp [hcross x hx b (by simp)])]
    simp only [List.takeWhile_cons, decide_eq_true_eq, hab, if_true, lt_irrefl,
      decide_False]
    simp
  -- the continuation suffix is exactly b :: l₂
  have hfilter : (l₁ ++ a :: b :: l₂).filter (fun st => decide (a.slot < st.slot))
      = b :: l₂ := by
    have hsplit : l₁ ++ a :: b :: l₂ = (l₁ ++ [a]) ++ (b :: l₂) := by simp
    rw [hsplit]
    refine filter_append_split _ _ _ (fun x hx => ?_) (fun x hx => ?_)
    · rcases List.mem_append.mp hx with hx1 | hx1
      · have : x.slot < a.slot := hcross x hx1 a (by simp)
        simp [not_lt_of_gt this]
      · have : x = a := by simpa using hx1
        simp [this]
    · rcases List.mem_cons.mp hx with rfl | hx1
      · simp [hab]
      · simp [ha x (List.mem_cons_of_mem b hx1)]
  have hcont : continuePipelineFromSlot (l₁ ++ a :: b :: l₂) a.slot
      = runStages (b :: l₂) := by
    funext g
    rw [continuePipelineFromSlot, hfilter]
  rw [runUpToSlot, htake, runLivePipeline, hcont, ← runStages_append]
  congr 1
  simp

def demoStageDark : Stage :=
  ⟨100, "dark_correction", fun fr => Except.ok (fun p => fr p - 1)⟩

def demoStageFlat : Stage :=
  ⟨200, "flat_correction", fun fr => Except.ok (fun p => fr p * 2)⟩

def demoStageCrop : Stage :=
  ⟨500, "autocrop", fun fr => Except.ok (fun p => fr (p + 1))⟩

/-- Witness for C2: the three-stage pipeline with slots 100 < 200 < 500;
prefix-only up to slot 200 followed by continuation from slot 100 equals the
full live run on the zero frame. -/
theorem pipeline_prefix_continuation_eq_live_witness :
    List.Pairwise (fun x y => x.slot < y.slot)
        [demoStageDark, demoStageFlat, demoStageCrop]
    ∧ (runUpToSlot [demoStageDark, demoStageFlat, demoStageCrop]
          demoStageFlat.slot (constFrame 0)).bind
        (continuePipelineFromSlot [demoStageDark, demoStageFlat, demoStageCrop]
          demoStageDark.slot)
      = runLivePipeline [demoStageDark, demoStageFlat, demoStageCrop]
          (constFrame 0) := by
  have hp : List.Pairwise (fun x y => x.slot < y.slot)
      [demoStageDark, demoStageFlat, demoStageCrop] := by
    refine List.Pairwise.cons (fun y hy => ?_)
      (List.Pairwise.cons (fun y hy => ?_)
        (List.Pairwise.cons (fun y hy => ?_) List.Pairwise.nil))
    · rcases List.mem_cons.mp hy with rfl | hy
      · norm_num [demoStageDark, demoStageFlat]
      · rcases List.mem_singleton.mp hy with rfl
        norm_num [demoStageDark, demoStageCrop]
    · rcases List.mem_singleton.mp hy with rfl
      norm_num [demoStageFlat, demoStageCrop]
    · exact absurd hy (List.not_mem_nil y)
  exact ⟨hp, pipeline_prefix_continuation_eq_live [] [demoStageCrop]
    demoStageDark demoStageFlat hp (constFrame 0)⟩

def boomStage : Stage := ⟨100, "boom", fun _ => Except.error "stage failure"⟩

/-- Counterexample to C6: a pipeline whose single stage raises. The live
run re-raises the stage exception instead of passing the frame through: the
run result is the error, not `ok` of the untouched input frame. -/
theorem pipeline_exception_counterexample :
    runLivePipeline [boomStage] (constFrame 0) = Except.error "stage failure"
    ∧ runLivePipeline [boomStage] (constFrame 0) ≠ Except.ok (constFrame 0) := by
  refine ⟨rfl, ?_⟩
  intro h
  simp [runLivePipeline, runStages, boomStage] at h

/-- C6 as amended: a stage exception does propagate out of the pipeline run.
If the stages before some stage `st` succeed, producing frame `g`, and
`st.step g` raises `e`, then the whole live run terminates with `e` (after
the source's one diagnostic print per failing step); the frame is not passed
through to the stages after `st`. -/
theorem pipeline_exception_propagates
    (l₁ l₂ : List Stage) (st : Stage) (f g : Frame) (e : String)
    (hok : runStages l₁ f = Except.ok g) (herr : st.step g = Except.error e) :
    runLivePipeline (l₁ ++ st :: l₂) f = Except.error e := by
  rw [runLivePipeline, runStages_append, hok]
  show runStages (st :: l₂) g = Except.error e
  simp [runStages, herr]

/-- Witness for C6 (amended): a dark-subtract stage succeeds, then the
failing stage raises and the run ends with its error. -/
theorem pipeline_exception_propagates_witness :
    runStages [demoStageDark] (constFrame 5) = Except.ok (fun p => constFrame 5 p - 1)
    ∧ boomStage.step (fun p => constFrame 5 p - 1) = Except.error "stage failure"
    ∧ runLivePipeline ([demoStageDark] ++ boomStage :: [demoStageFlat]) (constFrame 5)
        = Except.error "stage failure" :=
  ⟨rfl, rfl, pipeline_exception_propagates [demoStageDark] [demoStageFlat]
    boomStage (constFrame 5) (fun p => constFrame 5 p - 1) "stage failure" rfl rfl⟩

/-! ### Nearest-match dark reference lookup (gui.py lines 44-110, 472-494)

A directory entry is modelled post-parsing: the three filename patterns
produce an exposure time, a gain (0 for the oldest legacy pattern) and,
for the full pattern, the encoded dimensions. -/

/-- A parsed `dark_*.npy` directory entry. -/
structure DarkFile where
  path : String
  t : ℚ
  g : Int
  dims : Option (Nat × Nat)
deriving DecidableEq

/-- `_distance_time_gain` (gui.py lines 77-79). -/
def distanceTimeGain (t1 : ℚ) (g1 : Int) (t2 : ℚ) (g2 : Int) : ℚ :=
  |t1 - t2| + |(g1 : ℚ) - (g2 : ℚ)| / 100

/-- The resolution filter of `scan_dir` inside `_find_nearest_dark`
(gui.py lines 90-92): entries with encoded dimensions are skipped when a
positive query resolution differs from them; legacy entries without encoded
dimensions always pass. -/
def scanDirKeep (width height : Nat) (df : DarkFile) : Bool :=
  match df.dims with
  | some (w, h) => decide ¬(0 < width ∧ 0 < height ∧ (w ≠ width ∨ h ≠ height))
  | none => true

def scanDir (width height : Nat) (files : List DarkFile) : List DarkFile :=
  files.filter (scanDirKeep width height)

/-- One step of the selection loop in `_find_nearest_dark` (gui.py lines
105-109): the running best starts at `(None, inf, None)`, so the first
candidate always wins, and afterwards only a strictly smaller distance
replaces the running best. -/
def selectStep (ts : ℚ) (gn : Int) (best : Option (DarkFile × ℚ)) (c : DarkFile) :
    Option (DarkFile × ℚ) :=
  let d := distanceTimeGain ts gn c.t c.g
  match best with
  | none => some (c, d)
  | some (b, bd) => if d < bd then some (c, d) else some (b, bd)

def selectBest (ts : ℚ) (gn : Int) (cands : List DarkFile) : Option (DarkFile × ℚ) :=
  cands.foldl (selectStep ts gn) none

/-- `_find_nearest_dark` (gui.py lines 81-110): scan the per-detector
directory, then the top-level directory, concatenate the candidates in that
order, and select the minimum-distance candidate (first in scan order on a
tie). -/
def findNearestDark (ts : ℚ) (gn : Int) (width height : Nat)
    (perDetector topLevel : List DarkFile) : Option (DarkFile × ℚ) :=
  selectBest ts gn (scanDir width height perDetector ++ scanDir width height topLevel)

/-- `DARK_FLAT_MATCH_THRESHOLD` (gui.py line 45). -/
def DARK_FLAT_MATCH_THRESHOLD : ℚ := 1

/-- Outcome of `_load_dark_field` (gui.py lines 472-494): whether a dark was
applied, the `(t, g)` it was loaded from, and the nearest `(t, g)` recorded
for the status text when nothing was applied. -/
structure DarkLoadResult where
  darkApplied : Bool
  loadedTimeGain : Option (ℚ × Int)
  nearestTimeGain : Option (ℚ × Int)
deriving DecidableEq

/-- `_load_dark_field`. `loadShapeOk` abstracts the `np.load` succeeding
with an array matching the query resolution (lines 482-489). -/
def loadDarkField (ts : ℚ) (gn : Int) (width height : Nat)
    (perDetector topLevel : List DarkFile) (loadShapeOk : Bool) : DarkLoadResult :=
  match findNearestDark ts gn width height perDetector topLevel with
  | none => ⟨false, none, none⟩
  | some (df, dist) =>
      if dist ≤ DARK_FLAT_MATCH_THRESHOLD then
        if loadShapeOk then ⟨true, some (df.t, df.g), none⟩ else ⟨false, none, none⟩
      else ⟨false, none, some (df.t, df.g)⟩

lemma selectBest_go_keep (ts : ℚ) (gn : Int) (l : List DarkFile) (b : DarkFile) (bd : ℚ)
    (h : ∀ ca ∈ l, bd ≤ distanceTimeGain ts gn ca.t ca.g) :
    l.foldl (selectStep ts gn) (some (b, bd)) = some (b, bd) := by
  induction l with
  | nil => rfl
  | cons c l ih =>
      have hc : ¬ distanceTimeGain ts gn c.t c.g < bd :=
        not_lt.mpr (h c (List.mem_cons_self c l))
      simp only [List.foldl_cons, selectStep, if_neg hc]
      exact ih fun ca hca => h ca (List.mem_cons_of_mem c hca)

lemma selectBest_go_above (ts : ℚ) (gn : Int) (dA : ℚ) (l : List DarkFile)
    (init : Option (DarkFile × ℚ))
    (hinit : init = none ∨ ∃ b bd, init = some (b, bd) ∧ dA < bd)
    (h : ∀ ca ∈ l, dA < distanceTimeGain ts gn ca.t ca.g) :
    l.foldl (selectStep ts gn) init = none
    ∨ ∃ b bd, l.foldl (selectStep ts gn) init = some (b, bd) ∧ dA < bd := by
  induction l generalizing init with
  | nil => simpa using hinit
  | cons c l ih =>
      have hc : dA < distanceTimeGain ts gn c.t c.g := h c (List.mem_cons_self c l)
      rw [List.foldl_cons]
      refine ih (selectStep ts gn init c) ?_
        (fun ca hca => h ca (List.mem_cons_of_mem c hca))
      rcases hinit with rfl | ⟨b, bd, rfl, hbd⟩
      · exact Or.inr ⟨c, _, rfl, hc⟩
      · simp only [selectStep]
        by_cases hlt : distanceTimeGain ts gn c.t c.g < bd
        · rw [if_pos hlt]
          exact Or.inr ⟨c, _, rfl, hc⟩
        · rw [if_neg hlt]
          exact Or.inr ⟨b, bd, rfl, hbd⟩

/-- Claim C3: over the scanned candidate list, the lookup selects the first
candidate attaining the minimum distance: any candidate `A` that is strictly
closer than every candidate before it in scan order and at most as far as
every candidate after it is selected (so ties break to scan order), and the
per-detector directory is scanned before the top-level directory
(`findNearestDark` selects over per-detector candidates followed by
top-level candidates). -/
theorem nearest_match_selects_min_scan_order (ts : ℚ) (gn : Int)
    (l₁ l₂ : List DarkFile) (A : DarkFile)
    (h₁ : ∀ B ∈ l₁, distanceTimeGain ts gn A.t A.g < distanceTimeGain ts gn B.t B.g)
    (h₂ : ∀ B ∈ l₂, distanceTimeGain ts gn A.t A.g ≤ distanceTimeGain ts gn B.t B.g) :
    selectBest ts gn (l₁ ++ A :: l₂) = some (A, distanceTimeGain ts gn A.t A.g)
    ∧ ∀ (w h : Nat) (perDetector topLevel : List DarkFile),
        findNearestDark ts gn w h perDetector topLevel
          = selectBest ts gn (scanDir w h perDetector ++ scanDir w h topLevel) := by
  refine ⟨?_, fun _ _ _ _ => rfl⟩
  rw [selectBest, List.foldl_append, List.foldl_cons]
  have hfold := selectBest_go_above ts gn (distanceTimeGain ts gn A.t A.g) l₁ none
    (Or.inl rfl) h₁
  have hA : selectStep ts gn (l₁.foldl (selectStep ts gn) none) A
      = some (A, distanceTimeGain ts gn A.t A.g) := by
    rcases hfold with hnone | ⟨b, bd, hsome, hbd⟩
    · rw [hnone]
      rfl
    · rw [hsome]
      simp only [selectStep]
      rw [if_pos hbd]
  rw [hA]
  exact selectBest_go_keep ts gn l₂ A _ h₂

/-- Witness for C3: candidate `far` (distance 2) precedes `A` (distance 1),
candidate `tie` (distance 1) follows it; the scan selects `A`. -/
theorem nearest_match_selects_min_scan_order_witness :
    (∀ B ∈ [DarkFile.mk "dark_3.0_0.npy" 3 0 none],
        distanceTimeGain 1 0 2 0 < distanceTimeGain 1 0 B.t B.g)
    ∧ (∀ B ∈ [DarkFile.mk "dark_0.0_0.npy" 0 0 none],
        distanceTimeGain 1 0 2 0 ≤ distanceTimeGain 1 0 B.t B.g)
    ∧ selectBest 1 0
        ([DarkFile.mk "dark_3.0_0.npy" 3 0 none]
          ++ DarkFile.mk "dark_2.0_0.npy" 2 0 none
            :: [DarkFile.mk "dark_0.0_0.npy" 0 0 none])
        = some (DarkFile.mk "dark_2.0_0.npy" 2 0 none, distanceTimeGain 1 0 2 0) := by
  have h1 : ∀ B ∈ [DarkFile.mk "dark_3.0_0.npy" 3 0 none],
      distanceTimeGain 1 0 2 0 < distanceTimeGain 1 0 B.t B.g := by
    intro B hB
    rw [List.mem_singleton] at hB
    subst hB
    norm_num [distanceTimeGain]
  have h2 : ∀ B ∈ [DarkFile.mk "dark_0.0_0.npy" 0 0 none],
      distanceTimeGain 1 0 2 0 ≤ distanceTimeGain 1 0 B.t B.g := by
    intro B hB
    rw [List.mem_singleton] at hB
    subst hB
    norm_num [distanceTimeGain]
  exact ⟨h1, h2, (nearest_match_selects_min_scan_order 1 0
    [DarkFile.mk "dark_3.0_0.npy" 3 0 none]
    [DarkFile.mk "dark_0.0_0.npy" 0 0 none]
    (DarkFile.mk "dark_2.0_0.npy" 2 0 none) h1 h2).1⟩

def s2DarkA : DarkFile := ⟨"dark_1.0_100_2400x2400.npy", 1, 100, some (2400, 2400)⟩

def s2DarkB : DarkFile := ⟨"dark_1.5_100_2400x2400.npy", 3/2, 100, some (2400, 2400)⟩

/-- Counterexample to C8 (scenario S2): with stored keys `(1.0, 100)` and
`(1.5, 100)` at 2400x2400 and the query `(5.0, 200)`, the nearest distance
is `|5 − 1.5| + |200 − 100|/100 = 4.5`, attained by the `1.5 s` entry — not
`4.0 + 1.0 = 5.0` as the claim states (that is the distance to the `1.0 s`
entry, which is not the nearest). -/
theorem s2_nearest_distance_counterexample :
    findNearestDark 5 200 2400 2400 [s2DarkA, s2DarkB] [] = some (s2DarkB, 9/2)
    ∧ ((9 : ℚ)/2) ≠ 5 := by
  constructor
  · norm_num [findNearestDark, selectBest, scanDir, scanDirKeep, selectStep,
      s2DarkA, s2DarkB, distanceTimeGain, List.filter,
      abs_of_nonneg (by norm_num : (0:ℚ) ≤ 7/2)]
  · norm_num

/-- C8 as amended: for scenario S2 the nearest distance equals
`3.5 + 1.0 = 4.5` (the `1.5 s @ 100` entry); it exceeds the threshold `1.0`,
so no reference is applied and the nearest `(t, g)` remembered for the
status line is `(1.5, 100)`. -/
theorem s2_nearest_distance_amended :
    findNearestDark 5 200 2400 2400 [s2DarkA, s2DarkB] []
      = some (s2DarkB, 7/2 + 1)
    ∧ distanceTimeGain 5 200 s2DarkB.t s2DarkB.g = 7/2 + 1
    ∧ ¬ ((7/2 + 1 : ℚ) ≤ DARK_FLAT_MATCH_THRESHOLD)
    ∧ loadDarkField 5 200 2400 2400 [s2DarkA, s2DarkB] [] true
      = ⟨false, none, some (3/2, 100)⟩ := by
  have hfind : findNearestDark 5 200 2400 2400 [s2DarkA, s2DarkB] []
      = some (s2DarkB, 7/2 + 1) := by
    norm_num [findNearestDark, selectBest, scanDir, scanDirKeep, selectStep,
      s2DarkA, s2DarkB, distanceTimeGain, List.filter,
      abs_of_nonneg (by norm_num : (0:ℚ) ≤ 7/2)]
  refine ⟨hfind, ?_, by norm_num [DARK_FLAT_MATCH_THRESHOLD], ?_⟩
  · norm_num [distanceTimeGain, s2DarkB,
      abs_of_nonneg (by norm_num : (0:ℚ) ≤ 7/2)]
  · rw [loadDarkField, hfind]
    norm_num [DARK_FLAT_MATCH_THRESHOLD, s2DarkB]

/-! ### Bad-pixel replacement
(`modules/image_processing/bad_pixel_map/bad_pixel_correction.py` and
`machine_modules/bad_pixel_map/__init__.py` `process_frame`) -/

/-- The 3x3 neighbourhood offsets in source iteration order
(`for dy in range(-1, 2): for dx in range(-1, 2)` skipping `(0, 0)`). -/
def neighborOffsets : List (Int × Int) :=
  [(-1, -1), (-1, 0), (-1, 1), (0, -1), (0, 1), (1, -1), (1, 0), (1, 1)]

/-- `np.median` of the collected values: average of the two middle entries
of the sorted list for an even count, the middle entry for an odd count
(callers guard against the empty list; 0 is a don't-care default). -/
def npMedian (l : List ℚ) : ℚ :=
  let s := l.mergeSort (fun a b => decide (a ≤ b))
  if s.length % 2 = 1 then s.getD (s.length / 2) 0
  else (s.getD (s.length / 2 - 1) 0 + s.getD (s.length / 2) 0) / 2

/-- The values of the in-bounds, unmasked 3x3 neighbours of `(y, x)`
(`bad_pixel_correction.py` lines 49-56). -/
def goodNeighborVals (h w : Nat) (f : Frame2D) (mask : Nat → Nat → Bool)
    (y x : Nat) : List ℚ :=
  neighborOffsets.filterMap (fun d =>
    let ny : Int := (y : Int) + d.1
    let nx : Int := (x : Int) + d.2
    if 0 ≤ ny ∧ ny < (h : Int) ∧ 0 ≤ nx ∧ nx < (w : Int)
        ∧ mask ny.toNat nx.toNat = false
    then some (f ny.toNat nx.toNat) else none)

/-- `replace_bad_pixels` (`bad_pixel_correction.py` lines 9-60): start from a
copy of the frame and rewrite each masked pixel to the median of its
unmasked in-bounds 3x3 neighbours, leaving it alone when no unmasked
neighbour exists. (The early returns for an all-false mask or a shape
mismatch return the frame unchanged and are the identity here; frame and
mask share the `h x w` grid, as guaranteed by the caller's shape check.) -/
def replaceBadPixels (h w : Nat) (f : Frame2D) (mask : Nat → Nat → Bool) : Frame2D :=
  fun y x =>
    if y < h ∧ x < w ∧ mask y x = true then
      let vals := goodNeighborVals h w f mask y x
      if vals.isEmpty then f y x else npMedian vals
    else f y x

/-- `process_frame` of the bad_pixel_map module
(`machine_modules/bad_pixel_map/__init__.py` lines 179-189): pass through
when auto-correct is off, when no mask is loaded, or when the mask shape
differs from the frame shape; otherwise run the replacement. The mask
option carries the mask function and its own `(height, width)`. -/
def badPixelProcessFrame (autoCorrect : Bool)
    (maskOpt : Option ((Nat → Nat → Bool) × Nat × Nat))
    (h w : Nat) (f : Frame2D) : Frame2D :=
  if !autoCorrect then f
  else
    match maskOpt with
    | none => f
    | some (m, mh, mw) =>
        if mh = h ∧ mw = w then replaceBadPixels h w f m else f

/-- Claim C9: pixels where the mask is false are left unchanged by the
bad-pixel stage — both by the core replacement routine and through the
module's `process_frame` wrapper; only masked pixels may be rewritten. -/
theorem bad_pixel_unmasked_unchanged (h w : Nat) (f : Frame2D)
    (mask : Nat → Nat → Bool) (y x : Nat) (hm : mask y x = false) :
    replaceBadPixels h w f mask y x = f y x
    ∧ badPixelProcessFrame true (some (mask, h, w)) h w f y x = f y x := by
  have hrep : replaceBadPixels h w f mask y x = f y x := by
    rw [replaceBadPixels]
    rw [if_neg]
    simp [hm]
  refine ⟨hrep, ?_⟩
  have hwrap : badPixelProcessFrame true (some (mask, h, w)) h w f
      = replaceBadPixels h w f mask := by
    simp [badPixelProcessFrame]
  rw [hwrap]
  exact hrep

def demoBadPixelFrame : Frame2D := fun y x => (y : ℚ) * 10 + (x : ℚ)

def demoBadPixelMask : Nat → Nat → Bool := fun y x => decide (y = 0 ∧ x = 0)

/-- Witness for C9: on a 2x2 frame whose mask marks only pixel `(0, 0)`,
the unmasked pixel `(1, 1)` is unchanged by the stage. -/
theorem bad_pixel_unmasked_unchanged_witness :
    demoBadPixelMask 1 1 = false
    ∧ (replaceBadPixels 2 2 demoBadPixelFrame demoBadPixelMask 1 1
        = demoBadPixelFrame 1 1
      ∧ badPixelProcessFrame true (some (demoBadPixelMask, 2, 2)) 2 2
          demoBadPixelFrame 1 1 = demoBadPixelFrame 1 1) :=
  ⟨by decide, bad_pixel_unmasked_unchanged 2 2 demoBadPixelFrame
    demoBadPixelMask 1 1 (by decide)⟩

/-! ### Alteration pipeline construction
(`modules/registry.py` `discover_modules` and gui.py `_build_ui`
lines 1598-1614) -/

/-- Discovered module metadata relevant to pipeline construction:
`MODULE_INFO` type and `pipeline_slot`, the persisted enable flag, and
whether the imported module exposes a callable `process_frame`. -/
structure ModInfo where
  name : String
  mtype : String
  enabled : Bool
  pipelineSlot : Int
  hasProcessFrame : Bool
deriving DecidableEq

/-- Stable insertion placing `x` after every element whose slot is `≤` its
slot: together with the fold below this models Python's stable
`list.sort(key=lambda m: m.get("pipeline_slot", 0))`. -/
def insertBySlot (x : ModInfo) : List ModInfo → List ModInfo
  | [] => [x]
  | y :: ys => if y.pipelineSlot ≤ x.pipelineSlot then y :: insertBySlot x ys
               else x :: y :: ys

def sortBySlot (l : List ModInfo) : List ModInfo :=
  l.foldl (fun acc x => insertBySlot x acc) []

/-- `_build_ui` pipeline construction (gui.py lines 1598-1614): keep the
enabled alteration modules, sort them stably by `pipeline_slot`, and append
an entry `(slot, name)` for each module whose import yields a callable
`process_frame`. No duplicate-slot check is performed anywhere
(`discover_modules` in `modules/registry.py` performs none either). -/
def buildAlterationPipeline (mods : List ModInfo) : List (Int × String) :=
  ((sortBySlot (mods.filter (fun m => m.mtype = "alteration" && m.enabled))).filter
    (fun m => m.hasProcessFrame)).map (fun m => (m.pipelineSlot, m.name))

def dupSlotModA : ModInfo := ⟨"banding_a", "alteration", true, 300, true⟩

def dupSlotModB : ModInfo := ⟨"banding_b", "alteration", true, 300, true⟩

/-- Counterexample to C7: two enabled alteration stages declaring the same
slot 300 do not make pipeline construction fail; the built pipeline
contains both stages. -/
theorem duplicate_slot_counterexample :
    buildAlterationPipeline [dupSlotModA, dupSlotModB]
      = [(300, "banding_a"), (300, "banding_b")] := by decide

lemma mem_insertBySlot (x a : ModInfo) (l : List ModInfo) (h : a ∈ l ∨ a = x) :
    a ∈ insertBySlot x l := by
  induction l with
  | nil =>
      rcases h with h | rfl
      · exact absurd h (List.not_mem_nil a)
      · exact List.mem_singleton.mpr rfl
  | cons y ys ih =>
      rw [insertBySlot]
      by_cases hle : y.pipelineSlot ≤ x.pipelineSlot
      · rw [if_pos hle]
        rcases h with h | rfl
        · rcases List.mem_cons.mp h with rfl | h
          · exact List.mem_cons_self a _
          · exact List.mem_cons_of_mem y (ih (Or.inl h))
        · exact List.mem_cons_of_mem y (ih (Or.inr rfl))
      · rw [if_neg hle]
        rcases h with h | rfl
        · exact List.mem_cons_of_mem x h
        · exact List.mem_cons_self a _

lemma mem_sortBySlot_go (l acc : List ModInfo) (a : ModInfo)
    (h : a ∈ acc ∨ a ∈ l) :
    a ∈ l.foldl (fun acc x => insertBySlot x acc) acc := by
  induction l generalizing acc with
  | nil => simpa using h
  | cons y ys ih =>
      rw [List.foldl_cons]
      refine ih (insertBySlot y acc) ?_
      rcases h with h | h
      · exact Or.inl (mem_insertBySlot y a acc (Or.inl h))
      · rcases List.mem_cons.mp h with rfl | h
        · exact Or.inl (mem_insertBySlot a a acc (Or.inr rfl))
        · exact Or.inr h

lemma mem_sortBySlot (l : List ModInfo) (a : ModInfo) (h : a ∈ l) :
    a ∈ sortBySlot l :=
  mem_sortBySlot_go l [] a (Or.inr h)

/-- C7 as amended: the registry does not reject duplicate slots and
pipeline construction does not fail; every enabled alteration module with a
callable `process_frame` — including both members of a duplicate-slot pair —
contributes its `(slot, name)` entry to the built pipeline. -/
theorem duplicate_slot_pipeline_keeps_both (mods : List ModInfo) (m : ModInfo)
    (hmem : m ∈ mods) (htype : m.mtype = "alteration") (hen : m.enabled = true)
    (hpf : m.hasProcessFrame = true) :
    (m.pipelineSlot, m.name) ∈ buildAlterationPipeline mods := by
  rw [buildAlterationPipeline]
  refine List.mem_map.mpr ⟨m, ?_, rfl⟩
  refine List.mem_filter.mpr ⟨?_, hpf⟩
  refine mem_sortBySlot _ m (List.mem_filter.mpr ⟨hmem, ?_⟩)
  simp [htype, hen]

/-- Witness for C7 (amended): both duplicate-slot stages appear in the
pipeline built from the duplicate-slot module list. -/
theorem duplicate_slot_pipeline_keeps_both_witness :
    dupSlotModA ∈ [dupSlotModA, dupSlotModB]
    ∧ dupSlotModA.mtype = "alteration"
    ∧ dupSlotModA.enabled = true
    ∧ dupSlotModA.hasProcessFrame = true
    ∧ (dupSlotModA.pipelineSlot, dupSlotModA.name)
        ∈ buildAlterationPipeline [dupSlotModA, dupSlotModB] :=
  ⟨List.mem_cons_self _ _, rfl, rfl, rfl,
    duplicate_slot_pipeline_keeps_both [dupSlotModA, dupSlotModB] dupSlotModA
      (List.mem_cons_self _ _) rfl rfl rfl⟩

/-! ### Acquisition controller (gui.py lines 146-975)

The controller state is the subset of `XrayGUI` fields the claims touch.
Concurrency is abstracted where a call blocks on another thread: the beam
supply's `turn_on_and_wait_ready` result is a field of the supply model, and
what the detector worker / main-thread render tick produce while a started
acquisition runs is an explicit outcome parameter. Everything up to the
point where an acquisition actually starts is straight-line code in the
calling thread and is modelled statement by statement. -/

structure BeamSupply where
  wantsAutoOnOff : Bool
  isConnected : Bool
  /-- Result of `turn_on_and_wait_ready(should_cancel=...)`. -/
  turnOnReadyResult : Bool
deriving DecidableEq

inductive AcqMode
  | idle
  | single
  | dual
  | continuous
  | captureN
deriving DecidableEq

structure GuiState where
  /-- `camera_module is not None`. -/
  hasCamera : Bool
  /-- `camera_module.is_connected()`. -/
  cameraConnected : Bool
  acqMode : AcqMode
  beamSupply : Option BeamSupply
  workflowKeepBeamOn : Bool
  workflowRequestActive : Bool
  /-- `acq_stop.is_set()`. -/
  acqStop : Bool
  integrationN : Int
  frameBuffer : List Frame
  rawFrame : Option Frame
  displayFrame : Option Frame
  lastCapturedFrame : Option Frame
  /-- `_last_integration_fail_reason`. -/
  lastFailReason : Option String
  statusMsg : String
  progress : ℚ
  progressText : String
  displayMode : String
  captureMaxSlot : Option Int
  captureN : Int
  captureFramesCollect : List Frame
  /-- `_capture_frames_ready.is_set()`. -/
  captureFramesReady : Bool
  captureSkipBeam : Bool
  alterationPipeline : List Stage
  newFrameReady : Bool

/-- `clear_frame_buffer` (gui.py lines 319-324). -/
def clearFrameBuffer (s : GuiState) : GuiState :=
  { s with frameBuffer := [], displayFrame := none, rawFrame := none }

/-- The beam-supply refusal condition of `_start_acquisition` (gui.py lines
876-882) and of `request_n_frames_processed_up_to_slot` (lines 821-824):
a supply is registered, wants auto on/off, is not connected, the capture is
not skipping the beam, and the workflow keep-beam-on flag is off. -/
def beamRefusal (s : GuiState) (skipBeam : Bool) : Bool :=
  match s.beamSupply with
  | some b => b.wantsAutoOnOff && !b.isConnected && !skipBeam && !s.workflowKeepBeamOn
  | none => false

/-- The beam-supply turn-on-and-wait condition (gui.py lines 886-897 and
825-839). -/
def beamWaitNeeded (s : GuiState) (skipBeam : Bool) : Bool :=
  match s.beamSupply with
  | some b => b.wantsAutoOnOff && b.isConnected && !skipBeam && !s.workflowKeepBeamOn
  | none => false

def beamReady (s : GuiState) : Bool :=
  match s.beamSupply with
  | some b => b.turnOnReadyResult
  | none => false

/-- The tail of `_start_acquisition` once all guards passed (gui.py lines
898-910): switch display to live, set the mode, clear the stop flag and
progress, clear leftover capture state unless `_capture_skip_beam` is set,
clear the frame buffer, and start the camera worker (represented by the
non-idle mode). -/
def beginCapture (s : GuiState) (mode : AcqMode) : GuiState :=
  let s1 := { s with displayMode := "live", acqMode := mode,
                     acqStop := false, progress := 0 }
  let s2 := if s1.captureSkipBeam then s1
            else { s1 with captureMaxSlot := none, captureFramesCollect := [],
                           captureN := 0 }
  clearFrameBuffer s2

/-- `_start_acquisition` (gui.py lines 865-910). -/
def startAcquisition (s : GuiState) (mode : AcqMode) : GuiState :=
  if !s.hasCamera then { s with statusMsg := "No camera module loaded" }
  else if !s.cameraConnected then { s with statusMsg := "Not connected" }
  else if s.acqMode ≠ AcqMode.idle then s
  else if beamRefusal s s.captureSkipBeam then
    { s with statusMsg := "Auto On/Off enabled but supply not connected",
             lastFailReason := some "supply_not_connected" }
  else
    let s1 := { s with acqStop := false }
    if beamWaitNeeded s1 s1.captureSkipBeam then
      if !(beamReady s1) then
        { s1 with progressText := "",
                  statusMsg := if s1.acqStop then "Acquisition cancelled"
                               else "Supply did not become ready (timeout or fault)" }
      else beginCapture { s1 with progressText := "" } mode
    else beginCapture s1 mode

/-- What happens while a started `request_integration` acquisition runs,
seen from the calling workflow thread: the user stops it, the deadline
passes, or the worker finishes and the main-thread render tick publishes
`last_captured_frame` (or fails to within the 3 s grace wait). -/
inductive AcqOutcome
  | stoppedDuring
  | timedOut
  | finished (published : Option Frame)

/-- `request_integration` (gui.py lines 912-972). The acquisition-mode
combo lookup is the `uiMode` parameter (headless fallback `capture_n`);
`outcome` abstracts the concurrent run after a successful start. When
`_start_acquisition` returns without starting (its guard paths), `acq_mode`
is still idle: the poll loop exits at once, no `capturing -> idle` edge ever
reaches the render tick, so the 3 s wait finds `last_captured_frame` still
`None` and the reason is overwritten with `no_frame`. -/
def requestIntegration (s : GuiState) (uiMode : AcqMode) (numFrames : Int)
    (outcome : AcqOutcome) : GuiState × Option Frame :=
  if !s.hasCamera || !s.cameraConnected then
    ({ s with lastFailReason := some "not_connected" }, none)
  else if s.acqMode ≠ AcqMode.idle then
    ({ s with lastFailReason := some "not_idle" }, none)
  else
    let mode := if uiMode = AcqMode.continuous then AcqMode.captureN
                else if (uiMode = AcqMode.single ∨ uiMode = AcqMode.dual)
                        ∧ numFrames > 1 then AcqMode.captureN
                else uiMode
    let s0 := { s with integrationN := max 1 (min 32 numFrames),
                       lastCapturedFrame := none,
                       lastFailReason := none,
                       workflowRequestActive := true }
    let s1 := startAcquisition s0 mode
    if s1.acqMode = AcqMode.idle then
      let out := s1.lastCapturedFrame
      let s2 := if out.isNone then { s1 with lastFailReason := some "no_frame" }
                else s1
      ({ s2 with workflowRequestActive := false }, out)
    else
      match outcome with
      | AcqOutcome.stoppedDuring =>
          ({ s1 with acqStop := true, lastFailReason := some "stopped",
                     workflowRequestActive := false }, none)
      | AcqOutcome.timedOut =>
          ({ s1 with acqStop := true, lastFailReason := some "timeout",
                     workflowRequestActive := false }, none)
      | AcqOutcome.finished published =>
          let s2 := { s1 with acqMode := AcqMode.idle,
                              lastCapturedFrame := published }
          let s3 := if published.isNone
                    then { s2 with lastFailReason := some "no_frame" } else s2
          ({ s3 with workflowRequestActive := false }, published)

/-- The tail of `request_n_frames_processed_up_to_slot` after the beam
section (gui.py lines 841-863): enter `capture_n` mode; the worker then
feeds `_push_frame`, whose capture branch fills `_capture_frames_collect` —
the list present when the wait loops finish is the `collected` parameter,
and the worker's return to idle is represented directly. Finally the capture
state is reset and the mean of the collected frames (or `None` when fewer
than `n`) is returned. -/
def requestNFramesRun (s : GuiState) (n : Int) (collected : List Frame) :
    GuiState × Option Frame :=
  let s1 := { s with acqMode := AcqMode.idle, captureFramesCollect := collected }
  let s2 := { s1 with captureMaxSlot := none, captureFramesCollect := [],
                      captureN := 0, captureSkipBeam := false }
  if (collected.length : Int) < n then (s2, none)
  else (s2, some (meanFrames collected))

/-- `request_n_frames_processed_up_to_slot` (gui.py lines 796-863). Note
the supply-not-connected refusal (lines 821-824) returns without resetting
`_capture_max_slot` / `_capture_n` / `_capture_skip_beam`, unlike the
supply-not-ready branch right below it (lines 828-838). -/
def requestNFrames (s : GuiState) (n : Int) (maxSlot : Int)
    (darkCapture : Bool) (collected : List Frame) : GuiState × Option Frame :=
  if !s.hasCamera || !s.cameraConnected then (s, none)
  else if s.acqMode ≠ AcqMode.idle then (s, none)
  else
    let s0 := clearFrameBuffer
      { s with captureMaxSlot := some maxSlot, captureFramesCollect := [],
               captureN := n, captureFramesReady := false,
               captureSkipBeam := darkCapture, integrationN := n,
               acqStop := false, progress := 0 }
    if !darkCapture && beamRefusal s0 false then
      ({ s0 with statusMsg := "Auto On/Off enabled but supply not connected" },
        none)
    else if !darkCapture && beamWaitNeeded s0 false then
      if !(beamReady s0) then
        ({ s0 with progressText := "", captureMaxSlot := none,
                   captureFramesCollect := [], captureN := 0,
                   captureSkipBeam := false,
                   statusMsg := if s0.acqStop then "Acquisition cancelled"
                                else "Supply did not become ready (timeout or fault)" },
          none)
      else requestNFramesRun { s0 with progressText := "" } n collected
    else requestNFramesRun s0 n collected

/-- `_push_frame` (gui.py lines 638-712) at the state level: with
`_capture_max_slot` set, the frame runs the capture prefix and is appended
to `_capture_frames_collect` (signalling readiness at `_capture_n` frames);
otherwise it runs the full pipeline and lands in the integration buffer,
refreshing the integrated display. -/
def pushFrameG (s : GuiState) (f : Frame) : Except String GuiState :=
  match s.captureMaxSlot with
  | some maxSlot =>
      match runUpToSlot s.alterationPipeline maxSlot f with
      | Except.error e => Except.error e
      | Except.ok out =>
          let collect := s.captureFramesCollect ++ [out]
          Except.ok { s with
            captureFramesCollect := collect,
            captureFramesReady :=
              s.captureFramesReady || decide ((collect.length : Int) ≥ s.captureN) }
  | none =>
      match runLivePipeline s.alterationPipeline f with
      | Except.error e => Except.error e
      | Except.ok out =>
          let buf := pushProcessedBuffer s.integrationN s.frameBuffer out
          Except.ok { s with
            rawFrame := some out, frameBuffer := buf,
            displayFrame := updateIntegratedDisplay buf s.displayFrame,
            newFrameReady := true }

/-- An idle controller with a connected camera and no beam supply. -/
def idleState : GuiState where
  hasCamera := true
  cameraConnected := true
  acqMode := AcqMode.idle
  beamSupply := none
  workflowKeepBeamOn := false
  workflowRequestActive := false
  acqStop := false
  integrationN := 1
  frameBuffer := []
  rawFrame := none
  displayFrame := none
  lastCapturedFrame := none
  lastFailReason := none
  statusMsg := ""
  progress := 0
  progressText := ""
  displayMode := "live"
  captureMaxSlot := none
  captureN := 0
  captureFramesCollect := []
  captureFramesReady := false
  captureSkipBeam := false
  alterationPipeline := []
  newFrameReady := false

/-- Idle, camera connected, and a registered beam supply that wants auto
on/off but reports not connected. -/
def supplyDisconnectedState : GuiState :=
  { idleState with beamSupply := some ⟨true, false, false⟩ }

/-- Claim C4 (code bug): with the beam supply registered, auto-toggle on and
not connected, `request_integration(5)` is refused and returns `None`, but
the fail reason the caller can subsequently read is `no_frame`, not
`supply_not_connected`: `_start_acquisition` does set
`supply_not_connected` (third conjunct), and `request_integration` then
overwrites it with `no_frame` on its no-captured-frame path (second
conjunct). -/
theorem request_integration_supply_not_connected_reason_bug :
    (requestIntegration supplyDisconnectedState AcqMode.captureN 5
        (AcqOutcome.finished none)).2 = none
    ∧ (requestIntegration supplyDisconnectedState AcqMode.captureN 5
        (AcqOutcome.finished none)).1.lastFailReason = some "no_frame"
    ∧ (startAcquisition
        { supplyDisconnectedState with
          integrationN := 5
          lastCapturedFrame := none
          lastFailReason := none
          workflowRequestActive := true } AcqMode.captureN).lastFailReason
      = some "supply_not_connected"
    ∧ some "no_frame" ≠ some "supply_not_connected" := by
  refine ⟨rfl, rfl, rfl, by decide⟩

/-- Claim C10 (code bug): on the early refusal of
`request_n_frames_processed_up_to_slot(4, 200)` when the beam supply is
required but not connected, the call returns `None` with the prefix-capture
state still armed (`_capture_max_slot = 200`, `_capture_n = 4`), unlike every
other return path; a live frame submitted afterwards is therefore diverted
into the capture collector instead of the integration buffer. -/
theorem capture_state_not_reset_on_supply_refusal :
    (requestNFrames supplyDisconnectedState 4 200 false []).2 = none
    ∧ (requestNFrames supplyDisconnectedState 4 200 false []).1.captureMaxSlot
        = some 200
    ∧ (requestNFrames supplyDisconnectedState 4 200 false []).1.captureN = 4
    ∧ (pushFrameG (requestNFrames supplyDisconnectedState 4 200 false []).1
          (constFrame 7)).map GuiState.captureFramesCollect
        = Except.ok [constFrame 7]
    ∧ (pushFrameG (requestNFrames supplyDisconnectedState 4 200 false []).1
          (constFrame 7)).map GuiState.frameBuffer
        = Except.ok [] := by
  exact ⟨rfl, rfl, rfl, rfl, rfl⟩

/-- Counterexample to C5: `request_n_frames_processed_up_to_slot(50, 200)`
assigns `integration_n = 50` with no clamping, violating
`integration_n ≤ 32`. -/
theorem integration_capacity_clamp_counterexample :
    (requestNFrames supplyDisconnectedState 50 200 false []).1.integrationN = 50
    ∧ ¬ ((requestNFrames supplyDisconnectedState 50 200 false []).1.integrationN
          ≤ 32) := by
  refine ⟨rfl, ?_⟩
  intro h
  rw [show (requestNFrames supplyDisconnectedState 50 200 false []).1.integrationN
      = 50 from rfl] at h
  omega

lemma startAcquisition_integrationN (s : GuiState) (mode : AcqMode) :
    (startAcquisition s mode).integrationN = s.integrationN := by
  rw [startAcquisition]
  split_ifs <;>
    simp [beginCapture, clearFrameBuffer, apply_ite GuiState.integrationN]

lemma requestIntegration_integrationN (s : GuiState) (uiMode : AcqMode)
    (numFrames : Int) (outcome : AcqOutcome) :
    (requestIntegration s uiMode numFrames outcome).1.integrationN = s.integrationN
    ∨ (requestIntegration s uiMode numFrames outcome).1.integrationN
        = max 1 (min 32 numFrames) := by
  cases outcome <;>
    · simp only [requestIntegration]
      split_ifs <;>
        simp [startAcquisition_integrationN, apply_ite GuiState.integrationN]

/-- C5 as amended: `request_integration(N)` clamps into `1..=32` (so the
invariant `1 ≤ integration_n ≤ 32` is preserved on every path), but
`request_n_frames_processed_up_to_slot(n, max_slot)` assigns the requested
`n` to `integration_n` with no clamping whenever its connected-and-idle
checks pass, so the invariant is violated for any requested `n` outside
`1..=32`. -/
theorem integration_capacity_clamp_amended
    (s : GuiState) (uiMode : AcqMode) (numFrames : Int) (outcome : AcqOutcome)
    (n maxSlot : Int) (dark : Bool) (collected : List Frame)
    (hinv : 1 ≤ s.integrationN ∧ s.integrationN ≤ 32) :
    (1 ≤ (requestIntegration s uiMode numFrames outcome).1.integrationN
      ∧ (requestIntegration s uiMode numFrames outcome).1.integrationN ≤ 32)
    ∧ (s.hasCamera = true → s.cameraConnected = true → s.acqMode = AcqMode.idle →
        (requestNFrames s n maxSlot dark collected).1.integrationN = n) := by
  constructor
  · rcases requestIntegration_integrationN s uiMode numFrames outcome with h | h <;>
      rw [h] <;> omega
  · intro hc hcc hidle
    simp only [requestNFrames, hc, hcc, hidle]
    simp only [Bool.not_true, Bool.or_self, Bool.false_eq_true, if_false,
      ne_eq, not_true_eq_false]
    split_ifs <;>
      simp [requestNFramesRun, clearFrameBuffer, apply_ite GuiState.integrationN] <;>
      (try (split_ifs <;> rfl))

/-- Witness for C5 (amended): from the idle connected state with
`integration_n = 1`, `request_integration(100)` keeps the invariant while
`request_n_frames_processed_up_to_slot(7, 200)` writes `integration_n = 7`
directly. -/
theorem integration_capacity_clamp_amended_witness :
    (1 ≤ idleState.integrationN ∧ idleState.integrationN ≤ 32)
    ∧ ((1 ≤ (requestIntegration idleState AcqMode.captureN 100
              (AcqOutcome.finished none)).1.integrationN
        ∧ (requestIntegration idleState AcqMode.captureN 100
              (AcqOutcome.finished none)).1.integrationN ≤ 32)
      ∧ (idleState.hasCamera = true → idleState.cameraConnected = true →
          idleState.acqMode = AcqMode.idle →
          (requestNFrames idleState 7 200 true []).1.integrationN = 7)) :=
  ⟨⟨by norm_num [idleState], by norm_num [idleState]⟩,
    integration_capacity_clamp_amended idleState AcqMode.captureN 100
      (AcqOutcome.finished none) 7 200 true []
      ⟨by norm_num [idleState], by norm_num [idleState]⟩⟩
